import Mathlib

/-!
Shallow embedding of src/src/driver/ixgbe.rs, the ixgbe user-space NIC driver
of this repository.  MMIO register state is modelled as a function from byte
offset to 32-bit value, descriptor memory as functions from descriptor index
to the values the volatile reads return, and the mempool free stack as a list
of buffer indices.  Effects that the claims talk about (TDT/RDT writes,
descriptor writes, sleeps, buffers returned to the pool) are recorded in the
result structures.
-/

namespace Ixgbe

/-- The constant NUM_RX_QUEUE_ENTRIES (src line 20). -/
def NUM_RX_QUEUE_ENTRIES : Nat := 512

/-- The constant NUM_TX_QUEUE_ENTRIES (src line 21). -/
def NUM_TX_QUEUE_ENTRIES : Nat := 512

/-- The constant TX_CLEAN_BATCH (src line 23). -/
def TX_CLEAN_BATCH : Nat := 32

/-- The function wrap_ring (src lines 25-27): (index + 1) & (ring_size - 1). -/
def wrap_ring (index ring_size : Nat) : Nat := (index + 1) &&& (ring_size - 1)

/-- Modelled from the spec: a Packet names one mempool buffer (the Packet type
lives outside src); addr is its virtual address, len the packet length,
buf_index the pool slot.  Dropping a Packet returns buf_index to the owning
pool's free stack. -/
structure Packet where
  addr : Nat
  len : Nat
  buf_index : Nat
deriving Repr, DecidableEq

/-- Modelled from the spec: the DD bit of the TX writeback status dword
(constants module is not under src; IXGBE_ADVTXD_STAT_DD is bit 0). -/
def IXGBE_ADVTXD_STAT_DD : Nat := 0x1

/-- Modelled from the spec: TX descriptor command bits (constants module is
not under src); standard 82599 advanced TX descriptor encodings. -/
def IXGBE_ADVTXD_DCMD_EOP : Nat := 0x01000000

/-- Modelled from the spec: report-status command bit. -/
def IXGBE_ADVTXD_DCMD_RS : Nat := 0x08000000

/-- Modelled from the spec: insert-FCS command bit. -/
def IXGBE_ADVTXD_DCMD_IFCS : Nat := 0x02000000

/-- Modelled from the spec: descriptor-extension command bit. -/
def IXGBE_ADVTXD_DCMD_DEXT : Nat := 0x20000000

/-- Modelled from the spec: advanced data descriptor type. -/
def IXGBE_ADVTXD_DTYP_DATA : Nat := 0x00300000

/-- Modelled from the spec: shift of paylen inside olinfo_status. -/
def IXGBE_ADVTXD_PAYLEN_SHIFT : Nat := 14

/-- Modelled from the spec: DD bit (bit 0) of the RX writeback status dword. -/
def IXGBE_RXDADV_STAT_DD : Nat := 0x01

/-- Modelled from the spec: EOP bit (bit 1) of the RX writeback status dword. -/
def IXGBE_RXDADV_STAT_EOP : Nat := 0x02

/-- Modelled from the spec: byte offset of the FCTRL register (constants
module is not under src). -/
def IXGBE_FCTRL : Nat := 0x5080

/-- Modelled from the spec: FCTRL multicast-promiscuous-enable bit. -/
def IXGBE_FCTRL_MPE : Nat := 0x100

/-- Modelled from the spec: FCTRL unicast-promiscuous-enable bit. -/
def IXGBE_FCTRL_UPE : Nat := 0x200

/-- The struct IxgbeTxQueue (src lines 46-52).  status i models the value the
volatile read of the olinfo_status dword of descriptor i returns (src line
379); queue is the VecDeque of in-flight packets, front first. -/
structure IxgbeTxQueue where
  status : Nat → Nat
  queue : List Packet
  num_entries : Nat
  clean_index : Nat
  tx_index : Nat

/-- The cleaning loop of ixgbe_tx_batch (src lines 362-391).  cur is the local
cur_index, equal to queue.tx_index and unchanged by cleaning.  cleanable is
computed exactly as in the source (i32 difference, plus num_entries when
negative).  When DD is set at cleanup_to the source pops cleanable entries
from the FIFO (src lines 382-384) -- note: cleanable, not TX_CLEAN_BATCH --
and each popped Packet is dropped, returning its buffer to the pool (recorded
in freed).  The fuel argument only bounds the recursion: every continuing
iteration advances clean_index by TX_CLEAN_BATCH modulo num_entries, so
cleanable strictly decreases by TX_CLEAN_BATCH and the loop exits long before
num_entries iterations; the exit conditions are exactly those of the source. -/
def tx_clean_loop (status : Nat → Nat) (num_entries cur : Nat) :
    Nat → Nat → List Packet → List Nat → Nat × List Packet × List Nat
  | 0, clean_index, fifo, freed => (clean_index, fifo, freed)
  | fuel + 1, clean_index, fifo, freed =>
    let cleanable := if clean_index ≤ cur then cur - clean_index
      else num_entries + cur - clean_index
    if cleanable < TX_CLEAN_BATCH then (clean_index, fifo, freed)
    else
      let ct0 := clean_index + TX_CLEAN_BATCH - 1
      let cleanup_to := if num_entries ≤ ct0 then ct0 - num_entries else ct0
      if status cleanup_to &&& IXGBE_ADVTXD_STAT_DD ≠ 0 then
        tx_clean_loop status num_entries cur fuel (wrap_ring cleanup_to num_entries)
          (fifo.drop cleanable) (freed ++ (fifo.take cleanable).map Packet.buf_index)
      else (clean_index, fifo, freed)

/-- The enqueue loop of ixgbe_tx_batch (src lines 393-415), recursing over the
consumed packet Vec.  Returns (cur_index, sent, FIFO, descriptor writes as
(index, buffer_addr, cmd_type_len, olinfo_status), early_return flag, and the
buffer indices of the packets the early return leaves in the consumed Vec,
which Rust then drops, returning their buffers to the pool).  The source
advances queue.tx_index in lock-step with the local cur_index (src line 400),
so a single index models both.  virt_to_phys is outside src; the model records
the packet address in the buffer_addr slot of the write log. -/
def tx_enqueue_loop (num_entries clean_index : Nat) :
    List Packet → Nat → Nat → List Packet → List (Nat × Nat × Nat × Nat) →
    Nat × Nat × List Packet × List (Nat × Nat × Nat × Nat) × Bool × List Nat
  | [], cur, sent, fifo, writes => (cur, sent, fifo, writes, false, [])
  | p :: rest, cur, sent, fifo, writes =>
    let next := wrap_ring cur num_entries
    if clean_index = next then
      (cur, sent, fifo, writes, true, (p :: rest).map Packet.buf_index)
    else
      tx_enqueue_loop num_entries clean_index rest next (sent + 1) (fifo ++ [p])
        (writes ++ [(cur, p.addr,
          IXGBE_ADVTXD_DCMD_EOP ||| IXGBE_ADVTXD_DCMD_RS ||| IXGBE_ADVTXD_DCMD_IFCS |||
            IXGBE_ADVTXD_DCMD_DEXT ||| IXGBE_ADVTXD_DTYP_DATA ||| p.len,
          p.len <<< IXGBE_ADVTXD_PAYLEN_SHIFT)])

/-- Result of one ixgbe_tx_batch call: the return value sent, the persisted
queue fields, the buffer indices returned to the pool free stack during the
call, the TDT write (none when the early return skipped it), and the
descriptor write log. -/
structure TxBatchResult where
  sent : Nat
  clean_index : Nat
  tx_index : Nat
  fifo : List Packet
  freed : List Nat
  tdt_write : Option Nat
  desc_writes : List (Nat × Nat × Nat × Nat)
deriving Repr, DecidableEq

/-- The function ixgbe_tx_batch (src lines 353-421): the cleaning phase, then
queue.clean_index is persisted (src line 391), then the enqueue phase, then
the TDT write (src line 418) -- which the early return on a full ring (src
lines 396-398) skips. -/
def ixgbe_tx_batch (q : IxgbeTxQueue) (packets : List Packet) : TxBatchResult :=
  match tx_clean_loop q.status q.num_entries q.tx_index q.num_entries
      q.clean_index q.queue [] with
  | (clean_index, fifo, freed) =>
    match tx_enqueue_loop q.num_entries clean_index packets q.tx_index 0 fifo [] with
    | (cur, sent, fifo2, writes, early, dropped) =>
      { sent := sent
        clean_index := clean_index
        tx_index := cur
        fifo := fifo2
        freed := freed ++ dropped
        tdt_write := if early then none else some cur
        desc_writes := writes }

/-- Modelled from the spec: a Mempool (outside src) carves num_bufs fixed-size
buffers out of one DMA region; offset(buf) = virt_base + buf * buf_size;
pkt_buf_alloc pops the free stack and fails when it is empty. -/
structure Mempool where
  virt_base : Nat
  buf_size : Nat
  free_stack : List Nat
deriving Repr, DecidableEq

/-- Modelled from the spec: Mempool.offset. -/
def Mempool.offset (m : Mempool) (buf : Nat) : Nat := m.virt_base + buf * m.buf_size

/-- The struct IxgbeRxQueue (src lines 38-44).  status i and wb_length i model
the values the volatile reads of descriptor i at byte offsets 8 and 12 return
(src lines 307 and 317); entries i is mempool_entries[i]. -/
structure IxgbeRxQueue where
  status : Nat → Nat
  wb_length : Nat → Nat
  entries : Nat → Nat
  pool : Mempool
  num_entries : Nat
  rx_index : Nat

/-- Intermediate state of the rx loop.  status is carried in the state because
the refill write zeroes the dword at byte offset 8 of the slot (src line 330),
which a later iteration of the same call would re-read after a full wrap. -/
structure RxLoopState where
  status : Nat → Nat
  entries : Nat → Nat
  free_stack : List Nat
  rx_index : Nat
  last_rx_index : Nat
  packets : List Packet
  refills : List (Nat × Nat)

/-- The rx loop of ixgbe_rx_batch (src lines 306-340), recursing on the
remaining iterations of for i in 0..num_bufs.  Errors model the panic on a DD
descriptor without EOP (src line 311) and pkt_buf_alloc on an empty pool
(modelled from the spec, src line 324). -/
def rx_loop (q : IxgbeRxQueue) : Nat → RxLoopState → Except String RxLoopState
  | 0, s => Except.ok s
  | k + 1, s =>
    let st := s.status s.rx_index
    if st &&& IXGBE_RXDADV_STAT_DD ≠ 0 then
      if st &&& IXGBE_RXDADV_STAT_EOP = 0 then
        Except.error "increase buffer size or decrease MTU"
      else
        match s.free_stack with
        | [] => Except.error "pkt_buf_alloc on empty mempool"
        | buf :: rest =>
          let entry := s.entries s.rx_index
          let p : Packet :=
            { addr := q.pool.offset entry
              len := q.wb_length s.rx_index
              buf_index := entry }
          rx_loop q k
            { status := fun i => if i = s.rx_index then 0 else s.status i
              entries := fun i => if i = s.rx_index then buf else s.entries i
              free_stack := rest
              rx_index := wrap_ring s.rx_index q.num_entries
              last_rx_index := s.rx_index
              packets := s.packets ++ [p]
              refills := s.refills ++ [(s.rx_index, buf)] }
    else Except.ok s

/-- Result of one ixgbe_rx_batch call: the returned packets, the RDT write
(none when the final conditional did not fire), the persisted rx_index, the
pool free stack after the call, the descriptor refill log (index, new buffer),
and the milliseconds slept before returning. -/
structure RxBatchResult where
  packets : List Packet
  rdt_write : Option Nat
  rx_index : Nat
  free_stack : List Nat
  refills : List (Nat × Nat)
  sleep_ms : Nat
deriving Repr, DecidableEq

/-- The function ixgbe_rx_batch (src lines 295-351).  last_rx_index starts at
0 regardless of queue.rx_index (src lines 298-299), so the final conditional
(src line 343) compares the advanced rx_index against 0, not against the
starting index; when it fires it writes RDT := last_rx_index and persists
rx_index.  The unconditional 100 ms sleep (src line 348) is recorded in
sleep_ms. -/
def ixgbe_rx_batch (q : IxgbeRxQueue) (num_bufs : Nat) : Except String RxBatchResult :=
  match rx_loop q num_bufs
      { status := q.status
        entries := q.entries
        free_stack := q.pool.free_stack
        rx_index := q.rx_index
        last_rx_index := 0
        packets := []
        refills := [] } with
  | Except.error e => Except.error e
  | Except.ok s =>
    Except.ok
      { packets := s.packets
        rdt_write := if s.rx_index ≠ s.last_rx_index then some s.last_rx_index else none
        rx_index := if s.rx_index ≠ s.last_rx_index then s.rx_index else q.rx_index
        free_stack := s.free_stack
        refills := s.refills
        sleep_ms := 100 }

/-- The method get_reg32 (src lines 498-504): the volatile read happens only
under the bounds check reg <= len - 4; the else branch panics without touching
the device, modelled as none.  For len >= 4 the Nat subtraction coincides with
the Rust usize subtraction. -/
def get_reg32 (len : Nat) (regs : Nat → Nat) (reg : Nat) : Option Nat :=
  if reg ≤ len - 4 then some (regs reg) else none

/-- The method set_reg32 (src lines 506-512): returns the updated register
file, or none for the panic branch, which performs no device access. -/
def set_reg32 (len : Nat) (regs : Nat → Nat) (reg value : Nat) : Option (Nat → Nat) :=
  if reg ≤ len - 4 then some (fun r => if r = reg then value else regs r) else none

/-- The method set_flags32 (src lines 514-516). -/
def set_flags32 (len : Nat) (regs : Nat → Nat) (reg flags : Nat) : Option (Nat → Nat) :=
  match get_reg32 len regs reg with
  | none => none
  | some v => set_reg32 len regs reg (v ||| flags)

/-- The method clear_flags32 (src lines 518-520): Rust !flags on u32 equals
flags xor 0xFFFFFFFF. -/
def clear_flags32 (len : Nat) (regs : Nat → Nat) (reg flags : Nat) : Option (Nat → Nat) :=
  match get_reg32 len regs reg with
  | none => none
  | some v => set_reg32 len regs reg (v &&& (0xFFFFFFFF ^^^ flags))

/-- The method set_promisc (src lines 473-481). -/
def set_promisc (len : Nat) (regs : Nat → Nat) (enabled : Bool) : Option (Nat → Nat) :=
  if enabled then set_flags32 len regs IXGBE_FCTRL (IXGBE_FCTRL_MPE ||| IXGBE_FCTRL_UPE)
  else clear_flags32 len regs IXGBE_FCTRL (IXGBE_FCTRL_MPE ||| IXGBE_FCTRL_UPE)

/-- The power-of-two check of start_rx_queue (src lines 244-246): a failed
check is a panic, modelled as an error; otherwise the function proceeds. -/
def start_rx_queue_check (num_entries : Nat) : Except String Unit :=
  if num_entries &&& (num_entries - 1) ≠ 0 then
    Except.error "number of queue entries must be a power of 2"
  else Except.ok ()

/-- The power-of-two check of start_tx_queue (src lines 281-283): a failed
check only prints the message and the function proceeds; the model returns
the log lines together with normal completion. -/
def start_tx_queue_check (num_entries : Nat) : List String × Unit :=
  (if num_entries &&& (num_entries - 1) ≠ 0 then
      ["number of queue entries must be a power of 2"]
    else [], ())

/-- The while loop of wait_for_link (src lines 557-560): speed is read once
before the loop and never re-read inside it, so the loop condition only tests
the initial value and max_wait.  Returns the number of sleep(10 ms) calls.
Recursion is on max_wait, which strictly decreases by poll_interval = 10. -/
def wait_loop (speed : Nat) (max_wait : Nat) : Nat :=
  if h : speed = 0 ∧ 0 < max_wait then wait_loop speed (max_wait - 10) + 1 else 0
termination_by max_wait
decreasing_by
  simp_wf
  omega

/-- Result of wait_for_link: the number of 10 ms sleeps performed and the
speed value the final println logs. -/
structure WaitForLinkResult where
  sleeps : Nat
  logged_speed : Nat
deriving Repr, DecidableEq

/-- The function wait_for_link (src lines 553-562).  reads k is the value the
(k+1)-th call of get_link_speed returns: call 0 happens before the loop (src
line 556) and call 1 inside the final println (src line 561); the loop body
performs no further read. -/
def wait_for_link (reads : Nat → Nat) : WaitForLinkResult :=
  { sleeps := wait_loop (reads 0) 10000
    logged_speed := reads 1 }

/-- Shared input for the TX backpressure scenario: 512 entries, empty queue,
tx_index = clean_index = 0, no descriptor has DD set. -/
def txq512 : IxgbeTxQueue :=
  { status := fun _ => 0
    queue := []
    num_entries := 512
    clean_index := 0
    tx_index := 0 }

/-- Shared input for the TX backpressure scenario: 1000 distinct packets. -/
def pkts1000 : List Packet :=
  (List.range 1000).map (fun i => { addr := 2048 * i, len := 60, buf_index := i })

/-- Shared input: an idle RX ring (no DD bit set anywhere) with rx_index = 5. -/
def rxq_idle5 : IxgbeRxQueue :=
  { status := fun _ => 0
    wb_length := fun _ => 0
    entries := fun i => i
    pool := { virt_base := 0, buf_size := 2048, free_stack := [600, 601, 602] }
    num_entries := 512
    rx_index := 5 }

/-- Shared input: an idle RX ring with rx_index = 0. -/
def rxq_idle0 : IxgbeRxQueue :=
  { status := fun _ => 0
    wb_length := fun _ => 0
    entries := fun i => i
    pool := { virt_base := 0, buf_size := 2048, free_stack := [600, 601, 602] }
    num_entries := 512
    rx_index := 0 }

theorem nat_land_zero (a : Nat) : a &&& 0 = 0 := by
  apply Nat.eq_of_testBit_eq
  intro i
  simp [Nat.testBit_land]

theorem masked_bit_clear (x m c b : Nat) (h : c &&& b = 0) :
    ((x ||| m) &&& c) &&& b = 0 := by
  rw [Nat.land_assoc, h, nat_land_zero]

theorem wait_loop_zero_speed (m : Nat) : wait_loop 0 (10 * m) = m := by
  induction m with
  | zero =>
    rw [wait_loop]
    simp
  | succ k ih =>
    rw [wait_loop]
    have h10 : 10 * (k + 1) - 10 = 10 * k := by omega
    simp [h10, ih]

/-- C1: the claimed invariant -- after any tx_batch call the in-flight FIFO
length equals (tx_index - clean_index) mod num_entries -- fails on the code.
With num_entries = 512, tx_index = 64, clean_index = 0 and a 64-packet FIFO
(so the invariant holds on entry), DD set on descriptor 31 and clear on 63,
the cleaning loop's first iteration pops all 64 in-flight packets (the source
pops cleanable, not TX_CLEAN_BATCH, per completed batch) while advancing
clean_index only to 32, and the second iteration stops on the clear DD; the
FIFO ends empty while (tx_index - clean_index) mod num_entries = 32. -/
theorem C1_fifo_length_invariant_fails :
    let q : IxgbeTxQueue :=
      { status := fun i => if i = 31 then IXGBE_ADVTXD_STAT_DD else 0
        queue := (List.range 64).map (fun i => { addr := 0, len := 60, buf_index := i })
        num_entries := 512
        clean_index := 0
        tx_index := 64 }
    let r := ixgbe_tx_batch q []
    r.fifo.length = 0 ∧ r.clean_index = 32 ∧ r.tx_index = 64 ∧
      r.fifo.length ≠ (r.tx_index - r.clean_index) % 512 := by
  decide

set_option maxRecDepth 100000 in
/-- C2: the claim that after the enqueue loop stops -- also when the ring
became full -- the TDT register is written with tx_index fails on the code:
the early return on a full ring (src lines 396-398) skips the TDT write at
src line 418.  With 512 entries, tx_index = clean_index = 0, no DD set and
1000 packets, the call accepts 511 packets and performs no TDT write. -/
theorem C2_full_ring_skips_tdt_write :
    (ixgbe_tx_batch txq512 pkts1000).sent = 511 ∧
      (ixgbe_tx_batch txq512 pkts1000).tdt_write = none := by
  decide

/-- C3: the claim that rx_batch on an idle ring writes no RDT fails on the
code for any rx_index other than 0: last_rx_index is initialised to 0 instead
of to the queue's rx_index (src lines 298-299), so the final conditional fires
and writes RDT := 0.  With an idle 512-entry ring and rx_index = 5 the call
returns no packets and leaves rx_index at 5, but writes RDT = 0. -/
theorem C3_idle_ring_writes_rdt :
    (ixgbe_rx_batch rxq_idle5 32).toOption =
      some { packets := []
             rdt_write := some 0
             rx_index := 5
             free_stack := [600, 601, 602]
             refills := []
             sleep_ms := 100 } := by
  decide

set_option maxRecDepth 100000 in
/-- C4: the claim that packets the full ring rejects stay with the caller
fails on the code: ixgbe_tx_batch consumes the packet Vec, so the early
return drops the 489 unaccepted packets and their buffers are pushed onto the
pool free stack (Packet drop modelled from the spec).  In the 512-entry,
1000-packet scenario exactly the buffer indices of the unaccepted packets are
freed by the call. -/
theorem C4_unaccepted_packets_freed :
    (ixgbe_tx_batch txq512 pkts1000).freed =
        (pkts1000.drop 511).map Packet.buf_index ∧
      (ixgbe_tx_batch txq512 pkts1000).freed.length = 489 := by
  decide

set_option maxRecDepth 100000 in
/-- C5: with 512 queue entries, tx_index = clean_index = 0, no completed
descriptor and 1000 offered packets, ixgbe_tx_batch accepts exactly 511
packets, leaving one slot empty. -/
theorem C5_backpressure_returns_511 :
    (ixgbe_tx_batch txq512 pkts1000).sent = 511 := by
  decide

/-- C6: the claim that a non-power-of-two num_entries is fatal for RX and TX
queue start alike fails on the code: start_rx_queue panics (src lines
244-246) but start_tx_queue only prints the message and proceeds (src lines
281-283).  At num_entries = 500 the RX check errors while the TX check
completes normally with just a log line. -/
theorem C6_tx_check_not_fatal :
    start_rx_queue_check 500 =
        Except.error "number of queue entries must be a power of 2" ∧
      start_tx_queue_check 500 =
        (["number of queue entries must be a power of 2"], ()) := by
  exact ⟨rfl, rfl⟩

/-- C7: get_reg32 and set_reg32 perform the device access exactly when
reg + 4 <= mmio_len and panic without any access otherwise (src lines
498-512).  The hypothesis 4 <= len makes the Nat subtraction in the model
agree with the Rust usize subtraction of the source. -/
theorem C7_reg32_bounds_check (len reg value : Nat) (regs : Nat → Nat)
    (h4 : 4 ≤ len) :
    (reg + 4 ≤ len →
        get_reg32 len regs reg = some (regs reg) ∧
        set_reg32 len regs reg value =
          some (fun r => if r = reg then value else regs r)) ∧
    (len < reg + 4 →
        get_reg32 len regs reg = none ∧ set_reg32 len regs reg value = none) := by
  constructor
  · intro hle
    have h : reg ≤ len - 4 := by omega
    simp [get_reg32, set_reg32, h]
  · intro hgt
    have h : ¬ reg ≤ len - 4 := by omega
    simp [get_reg32, set_reg32, h]

theorem C7_reg32_bounds_check_witness :
    (4 ≤ 8) ∧
      ((4 + 4 ≤ 8 →
          get_reg32 8 (fun _ => 0) 4 = some ((fun _ => (0 : Nat)) 4) ∧
          set_reg32 8 (fun _ => 0) 4 7 =
            some (fun r => if r = 4 then 7 else (fun _ => (0 : Nat)) r)) ∧
        (8 < 4 + 4 →
          get_reg32 8 (fun _ => 0) 4 = none ∧ set_reg32 8 (fun _ => 0) 4 7 = none)) :=
  ⟨by decide, C7_reg32_bounds_check 8 4 7 (fun _ => 0) (by decide)⟩

/-- C8: the claim that the RX and TX fast paths never sleep fails on the
code: ixgbe_rx_batch sleeps 100 ms unconditionally before returning (src line
348), even on an idle ring where it returns no packets. -/
theorem C8_rx_batch_sleeps_100ms :
    (ixgbe_rx_batch rxq_idle0 32).toOption.map RxBatchResult.sleep_ms = some 100 := by
  decide

/-- C9: from any starting FCTRL value, set_promisc true followed by
set_promisc false leaves both FCTRL.MPE and FCTRL.UPE clear.  The hypothesis
keeps the FCTRL offset inside the bounds-checked MMIO window, as on real
hardware. -/
theorem C9_promisc_toggle_clears_bits (len : Nat) (regs : Nat → Nat)
    (h : IXGBE_FCTRL + 4 ≤ len) :
    ∃ r1 r2 : Nat → Nat,
      set_promisc len regs true = some r1 ∧
      set_promisc len r1 false = some r2 ∧
      r2 IXGBE_FCTRL &&& IXGBE_FCTRL_MPE = 0 ∧
      r2 IXGBE_FCTRL &&& IXGBE_FCTRL_UPE = 0 := by
  have hle : IXGBE_FCTRL ≤ len - 4 := by
    simp only [IXGBE_FCTRL] at h ⊢
    omega
  refine ⟨fun r => if r = IXGBE_FCTRL then
      regs IXGBE_FCTRL ||| (IXGBE_FCTRL_MPE ||| IXGBE_FCTRL_UPE) else regs r,
    fun r => if r = IXGBE_FCTRL then
      (regs IXGBE_FCTRL ||| (IXGBE_FCTRL_MPE ||| IXGBE_FCTRL_UPE)) &&&
        (0xFFFFFFFF ^^^ (IXGBE_FCTRL_MPE ||| IXGBE_FCTRL_UPE))
    else if r = IXGBE_FCTRL then
      regs IXGBE_FCTRL ||| (IXGBE_FCTRL_MPE ||| IXGBE_FCTRL_UPE)
    else regs r,
    ?_, ?_, ?_, ?_⟩
  · simp [set_promisc, set_flags32, get_reg32, set_reg32, hle]
  · simp [set_promisc, clear_flags32, get_reg32, set_reg32, hle]
  · simp only [if_pos rfl]
    exact masked_bit_clear _ _ _ _ (by decide)
  · simp only [if_pos rfl]
    exact masked_bit_clear _ _ _ _ (by decide)

theorem C9_promisc_toggle_clears_bits_witness :
    IXGBE_FCTRL + 4 ≤ 0x20000 ∧
      ∃ r1 r2 : Nat → Nat,
        set_promisc 0x20000 (fun _ => 0xFFFFFFFF) true = some r1 ∧
        set_promisc 0x20000 r1 false = some r2 ∧
        r2 IXGBE_FCTRL &&& IXGBE_FCTRL_MPE = 0 ∧
        r2 IXGBE_FCTRL &&& IXGBE_FCTRL_UPE = 0 :=
  ⟨by decide, C9_promisc_toggle_clears_bits 0x20000 (fun _ => 0xFFFFFFFF) (by decide)⟩

/-- C10: wait_for_link reads the link speed once before its loop and never
re-reads it inside; whenever that initial read (reads 0) returns 0 the
function performs the full 1000 sleeps of 10 ms -- regardless of the values
any later read would return, i.e. even if the link comes up earlier -- and
the speed it logs is the one final read after the loop (reads 1). -/
theorem C10_wait_for_link_full_sleep (reads : Nat → Nat) (h : reads 0 = 0) :
    (wait_for_link reads).sleeps = 1000 ∧
      (wait_for_link reads).logged_speed = reads 1 := by
  constructor
  · show wait_loop (reads 0) 10000 = 1000
    rw [h]
    have h1000 : (10000 : Nat) = 10 * 1000 := by norm_num
    rw [h1000, wait_loop_zero_speed]
  · rfl

theorem C10_wait_for_link_full_sleep_witness :
    (fun k => if k = 0 then 0 else 10000) 0 = 0 ∧
      (wait_for_link (fun k => if k = 0 then 0 else 10000)).sleeps = 1000 ∧
      (wait_for_link (fun k => if k = 0 then 0 else 10000)).logged_speed = 10000 := by
  refine ⟨rfl, ?_, ?_⟩
  · exact (C10_wait_for_link_full_sleep (fun k => if k = 0 then 0 else 10000) rfl).1
  · exact (C10_wait_for_link_full_sleep (fun k => if k = 0 then 0 else 10000) rfl).2

end Ixgbe
